import Mathlib

/-!
Shallow embedding of the `Jetrug/matrix` backend
(`src/backend/main.py`, `src/backend/database.py`): a FastAPI service
that extracts page texts from uploaded PDFs, sends texts to a
completion model to infer company financial fields, and persists
company-data records in a single SQL table.

Machine conventions of the embedding:
- `Time` models `datetime` timestamps as `Nat`.
- `Env` models the process environment (`os.environ`) as an
  association list.
- `FS` models the local filesystem as the list of existing paths.
- External collaborators (the `zerox` conversion engine, the OpenAI
  completion endpoint) are passed in as function/result parameters, so
  theorems quantify over all of their behaviours.
- Fallible Python code (raised exceptions) is modelled with `Except`.
-/

namespace MatrixBackend

/-- Timestamps (`datetime.datetime.utcnow()` values), modelled as `Nat`. -/
abbrev Time := Nat

/-- The process environment `os.environ`, an association list of
variable names to values. -/
abbrev Env := List (String × String)

/-- `os.getenv` / `os.environ` lookup. -/
def getenv (env : Env) (key : String) : Option String :=
  List.lookup key env

/-- Startup-time failures: `database.py` raises `ValueError` when
`DATABASE_URL` is unset (lines 8-10), and constructing the OpenAI
client without a key raises `OpenAIError`. -/
inductive StartupErr where
  | missingDatabaseUrl
  | missingApiKey
deriving DecidableEq, Repr

/-- A FastAPI `HTTPException`: status code plus human-readable detail. -/
structure HTTPError where
  status : Nat
  detail : String
deriving DecidableEq, Repr

/-- Python `str(HTTPException(code, detail))`, which renders as
`"<code>: <detail>"`. -/
def HTTPError.toText (e : HTTPError) : String :=
  toString e.status ++ ": " ++ e.detail

/-- Database-level failure: violating the primary-key constraint on
`company_data.id` (an `IntegrityError` raised at commit). -/
inductive DbErr where
  | duplicateIdentifier
deriving DecidableEq, Repr

/-! ## `src/backend/database.py` -/

/-- `database_init` models lines 8-10 of `src/backend/database.py`:

    DATABASE_URL = os.getenv("DATABASE_URL")
    if not DATABASE_URL:
        raise ValueError("DATABASE_URL environment variable is not set")

run as a module-level side effect at import time. Python falsiness:
`not DATABASE_URL` is true both when the variable is unset (`None`)
and when it is set to the empty string. -/
def database_init (env : Env) : Except StartupErr Unit :=
  match getenv env "DATABASE_URL" with
  | none => .error .missingDatabaseUrl
  | some url => if url = "" then .error .missingDatabaseUrl else .ok ()

/-- The ORM row type `CompanyData` of `src/backend/database.py`:
`id` is the `String` primary key, `file_name` is non-nullable, all
other text columns are nullable, and `created_at` carries the
server-assigned `DateTime` (default `datetime.datetime.utcnow`). -/
structure CompanyData where
  id : String
  file_name : String
  company_name : Option String
  company_description : Option String
  company_business_model : Option String
  company_industry : Option String
  management_team : Option String
  revenue : Option String
  revenue_growth : Option String
  gross_profit : Option String
  ebitda : Option String
  capex : Option String
  created_at : Time
deriving DecidableEq, Repr

/-- The persistent store: the rows of the single `company_data` table. -/
structure DB where
  rows : List CompanyData
deriving DecidableEq, Repr

/-- The schema invariant enforced by the primary-key constraint on
`company_data.id`: all row identifiers are distinct. -/
def DBInvariant (db : DB) : Prop :=
  (db.rows.map CompanyData.id).Nodup

/-- Insertion through the SQL layer (`db.add` + `db.commit`): the
primary-key constraint on `id` rejects a duplicate identifier with an
`IntegrityError` at commit time; the transaction is not applied. This
is constraint enforcement by the store, not a pre-check in the
handler. -/
def db_insert (row : CompanyData) (db : DB) : Except DbErr DB :=
  if db.rows.any (fun r => r.id == row.id) then .error .duplicateIdentifier
  else .ok { rows := db.rows ++ [row] }

/-! ## `src/backend/main.py`: the Pydantic schema and the wire format -/

/-- The Pydantic model `CompanyDataSchema` of `src/backend/main.py`
(lines 27-47): `id` and `file_name` are required, every other field is
`Optional[str] = None`. Note it has no `created_at` field. -/
structure CompanyDataSchema where
  id : String
  file_name : String
  company_name : Option String := none
  company_description : Option String := none
  company_business_model : Option String := none
  company_industry : Option String := none
  management_team : Option String := none
  revenue : Option String := none
  revenue_growth : Option String := none
  gross_profit : Option String := none
  ebitda : Option String := none
  capex : Option String := none
deriving DecidableEq, Repr

/-- Python `str.capitalize()`: uppercase the first character and
lowercase the rest. -/
def pyCapitalize (s : String) : String :=
  match s.data with
  | [] => s
  | c :: cs => String.mk (c.toUpper :: cs.map Char.toLower)

/-- Python `s.split("_")` on the character list: split at every
underscore (the empty string yields `[""]`). -/
def splitOnUnderscore : List Char → List (List Char)
  | [] => [[]]
  | c :: cs =>
      match splitOnUnderscore cs with
      | [] => if c = '_' then [[], []] else [[c]]
      | w :: ws => if c = '_' then [] :: w :: ws else (c :: w) :: ws

/-- The `alias_generator` lambda of `CompanyDataSchema.model_config`:

    lambda s: "".join([s.split("_")[0]] + [w.capitalize() for w in s.split("_")[1:]])

turning a snake_case field name into its camelCase wire name. -/
def aliasGenerator (s : String) : String :=
  match (splitOnUnderscore s.data).map String.mk with
  | [] => ""
  | w :: ws => String.join (w :: ws.map pyCapitalize)

/-- The declared field names of `CompanyDataSchema`, in declaration
order. -/
def fieldNames : List String :=
  ["id", "file_name", "company_name", "company_description",
   "company_business_model", "company_industry", "management_team",
   "revenue", "revenue_growth", "gross_profit", "ebitda", "capex"]

/-- Serialization of a `CompanyDataSchema` at the response boundary:
FastAPI dumps response models by alias, so every key on the wire is
`aliasGenerator` applied to the internal snake_case name. A value of
`none` serializes as JSON `null`. -/
def serializeSchema (s : CompanyDataSchema) : List (String × Option String) :=
  [(aliasGenerator "id", some s.id),
   (aliasGenerator "file_name", some s.file_name),
   (aliasGenerator "company_name", s.company_name),
   (aliasGenerator "company_description", s.company_description),
   (aliasGenerator "company_business_model", s.company_business_model),
   (aliasGenerator "company_industry", s.company_industry),
   (aliasGenerator "management_team", s.management_team),
   (aliasGenerator "revenue", s.revenue),
   (aliasGenerator "revenue_growth", s.revenue_growth),
   (aliasGenerator "gross_profit", s.gross_profit),
   (aliasGenerator "ebitda", s.ebitda),
   (aliasGenerator "capex", s.capex)]

/-- Pydantic field population with `populate_by_name = True`: a field
is filled from the body key equal to its alias (the camelCase name),
falling back to the snake_case field name itself. -/
def fieldLookup (body : List (String × Option String)) (name : String) :
    Option (Option String) :=
  match List.lookup (aliasGenerator name) body with
  | some v => some v
  | none => List.lookup name body

/-- An optional field of the request body: absent or null both give
`None`. -/
def optField (body : List (String × Option String)) (name : String) :
    Option String :=
  Option.join (fieldLookup body name)

/-- Pydantic validation of a request body against `CompanyDataSchema`:
the required `id` and `file_name` must be present and non-null, every
other field defaults to `None`. -/
def parseSchema (body : List (String × Option String)) :
    Option CompanyDataSchema :=
  match fieldLookup body "id", fieldLookup body "file_name" with
  | some (some i), some (some fn) =>
      some { id := i
             file_name := fn
             company_name := optField body "company_name"
             company_description := optField body "company_description"
             company_business_model := optField body "company_business_model"
             company_industry := optField body "company_industry"
             management_team := optField body "management_team"
             revenue := optField body "revenue"
             revenue_growth := optField body "revenue_growth"
             gross_profit := optField body "gross_profit"
             ebitda := optField body "ebitda"
             capex := optField body "capex" }
  | _, _ => none

/-- `CompanyDataSchema.from_orm(obj)`: read the declared schema fields
off an ORM row (the row's `created_at` has no schema counterpart and
is dropped). -/
def CompanyDataSchema.from_orm (r : CompanyData) : CompanyDataSchema :=
  { id := r.id
    file_name := r.file_name
    company_name := r.company_name
    company_description := r.company_description
    company_business_model := r.company_business_model
    company_industry := r.company_industry
    management_team := r.management_team
    revenue := r.revenue
    revenue_growth := r.revenue_growth
    gross_profit := r.gross_profit
    ebitda := r.ebitda
    capex := r.capex }

/-- The `CompanyData(...)` construction inside `create_company_data`:
every schema field is copied, and the `created_at` column receives its
server-side default, the insert-time clock value. -/
def mkRow (data : CompanyDataSchema) (now : Time) : CompanyData :=
  { id := data.id
    file_name := data.file_name
    company_name := data.company_name
    company_description := data.company_description
    company_business_model := data.company_business_model
    company_industry := data.company_industry
    management_team := data.management_team
    revenue := data.revenue
    revenue_growth := data.revenue_growth
    gross_profit := data.gross_profit
    ebitda := data.ebitda
    capex := data.capex
    created_at := now }

/-! ## `src/backend/main.py`: the company-data endpoints -/

/-- The `ORDER BY created_at DESC` comparison used by the list
endpoint: `a` precedes `b` when `a.created_at >= b.created_at`. -/
def rowDesc (a b : CompanyData) : Prop :=
  b.created_at ≤ a.created_at

instance : DecidableRel rowDesc := fun a b => Nat.decLe b.created_at a.created_at

instance : IsTotal CompanyData rowDesc :=
  ⟨fun a b => Nat.le_total b.created_at a.created_at⟩

instance : IsTrans CompanyData rowDesc :=
  ⟨fun _ _ _ h h2 => Nat.le_trans h2 h⟩

/-- The query `db.query(CompanyData).order_by(CompanyData.created_at.desc()).all()`
of `get_company_data`. -/
def get_company_data_rows (db : DB) : List CompanyData :=
  List.insertionSort rowDesc db.rows

/-- `GET /api/company-data` (`get_company_data`, main.py lines
112-115): read all rows newest-first and marshal each through
`CompanyDataSchema.from_orm`. The handler only reads; the store is
returned unchanged. -/
def get_company_data (db : DB) : List CompanyDataSchema × DB :=
  ((get_company_data_rows db).map CompanyDataSchema.from_orm, db)

/-- `POST /api/company-data` (`create_company_data`, main.py lines
118-137): build the ORM row from the validated schema (server clock
`now` supplies the `created_at` default at insert), `db.add` +
`db.commit` it, and return the refreshed row through `from_orm`. On a
constraint violation the store is unchanged and the error
propagates. -/
def create_company_data (data : CompanyDataSchema) (now : Time) (db : DB) :
    Except DbErr CompanyDataSchema × DB :=
  let db_obj := mkRow data now
  match db_insert db_obj db with
  | .error e => (.error e, db)
  | .ok db2 => (.ok (CompanyDataSchema.from_orm db_obj), db2)

/-! ## `src/backend/main.py`: the extract endpoint -/

/-- A multipart upload (`UploadFile`): the client-supplied filename
and the byte content. -/
structure UploadFile where
  filename : String
  content : String
deriving DecidableEq, Repr

/-- The local filesystem, as the list of paths that currently exist. -/
abbrev FS := List String

/-- The temporary path chosen by `extract_data` (main.py line 67):
`f"./temp_{file.filename}"`. -/
def tempFilePath (file : UploadFile) : String :=
  "./temp_" ++ file.filename

/-- `POST /api/extract` (`extract_data`, main.py lines 58-84): save
the upload to `./temp_<filename>` (creating that path), run the
`zerox` conversion — an external engine, passed here as its outcome
`zerox_result`: the per-page contents on success, an exception message
on failure — and in a `finally` block delete the temporary file on
both exit paths. Returns the list of page contents. -/
def extract_data (file : UploadFile)
    (zerox_result : Except String (List String)) (fs : FS) :
    Except HTTPError (List String) × FS :=
  let temp_file_path := tempFilePath file
  let fs1 : List String := List.insert temp_file_path fs
  match zerox_result with
  | .ok pages => (.ok pages, fs1.filter (fun p => p != temp_file_path))
  | .error msg => (.error ⟨500, msg⟩, fs1.filter (fun p => p != temp_file_path))

/-! ## `src/backend/main.py`: the parse endpoint -/

/-- `json.dumps` on a list of strings: double-quote each element
(escaping backslashes and quotes) and join with `", "` inside
brackets. -/
def jsonEscape (s : String) : String :=
  s.data.foldl
    (fun acc c =>
      if c = '"' then acc ++ "\\\""
      else if c = '\\' then acc ++ "\\\\"
      else acc.push c) ""

/-- `json.dumps` for `list[str]`. -/
def jsonDumps (xs : List String) : String :=
  "[" ++ String.intercalate ", " (xs.map (fun s => "\"" ++ jsonEscape s ++ "\"")) ++ "]"

/-- The fixed instruction text of the `parse_data` prompt. -/
def parsePromptHeader : String :=
  "Extract key company information and hard numerical/financial figures from the following text. Try to get the following fields along with a confidence score (%) and a source (array index within Text) for each. Return output in JSON format with key=field and obj having props value,confidence,source. If no value can be explicitly matched, use a \x27best guess\x27 based on full context, reflect this in the confidence score and add another field \x27guess\x27 = true. If guess can not be made, use empty string for value. For percentage fields, use only the number followed by % (assume or convert YoY) and for monetary fields, use the currency followed by the figure followed by K/M/B if applicable\n\n"

/-- The prompt built by `parse_data` (main.py lines 93-99). -/
def parsePrompt (strings columns : List String) : String :=
  parsePromptHeader
    ++ "Fields: " ++ jsonDumps columns ++ "\n\n"
    ++ "Text: " ++ jsonDumps strings ++ "\n"

/-- Outcome of one `parse_data` request: the HTTP result, plus whether
the inference endpoint (`llm.responses.create`) was invoked at all. -/
structure ParseOutcome where
  result : Except HTTPError String
  llmCalled : Bool
deriving Repr

/-- `POST /api/parse` (`parse_data`, main.py lines 86-109). Inside a
`try`: if `"OPENAI_API_KEY" not in os.environ`, raise
`HTTPException(500, "OpenAI API key not set")` before any call to the
inference service; otherwise build the prompt and call
`llm.responses.create` (the external completion endpoint, passed here
as the function `llm` from prompt to outcome). The surrounding
`except Exception` re-wraps any raised exception `e` as
`HTTPException(500, str(e))` — so the missing-key `HTTPException` is
itself re-wrapped, prefixing its status code to the detail. -/
def parse_data (env : Env) (strings columns : List String)
    (llm : String → Except String String) : ParseOutcome :=
  if (getenv env "OPENAI_API_KEY").isNone then
    { result := .error ⟨500, HTTPError.toText ⟨500, "OpenAI API key not set"⟩⟩
      llmCalled := false }
  else
    match llm (parsePrompt strings columns) with
    | .ok out => { result := .ok out, llmCalled := true }
    | .error msg => { result := .error ⟨500, msg⟩, llmCalled := true }

/-! ## Module startup -/

/-- Models the external OpenAI client constructor `OpenAI()` invoked
at module scope by `src/backend/main.py` line 16 (`llm = OpenAI()`).
Per the documented behaviour of the `openai` Python library v1.x (the
version providing the `responses.create` API used at line 101), the
constructor raises `OpenAIError` at construction time when no api_key
argument is passed and `OPENAI_API_KEY` is absent from the
environment. -/
def openai_client_init (env : Env) : Except StartupErr Unit :=
  match getenv env "OPENAI_API_KEY" with
  | none => .error .missingApiKey
  | some _ => .ok ()

/-- Process startup of the backend: importing `backend.main` first
imports `backend.database` (line 13), whose module body requires
`DATABASE_URL` (database.py lines 8-10), then constructs the OpenAI
client at line 16. Only if both succeed does the app exist and can any
handler be invoked. -/
def main_startup (env : Env) : Except StartupErr Unit := do
  database_init env
  openai_client_init env

/-! ## Helper lemmas -/

/-- Reading a freshly built row back through `from_orm` recovers the
schema: the only extra column, `created_at`, has no schema field. -/
lemma from_orm_mkRow (data : CompanyDataSchema) (now : Time) :
    CompanyDataSchema.from_orm (mkRow data now) = data := rfl

/-- The wire keys of any serialized record, computed: camelCase
renderings of the twelve schema field names. -/
lemma serializeSchema_keys (s : CompanyDataSchema) :
    (serializeSchema s).map Prod.fst =
      ["id", "fileName", "companyName", "companyDescription",
       "companyBusinessModel", "companyIndustry", "managementTeam",
       "revenue", "revenueGrowth", "grossProfit", "ebitda", "capex"] := rfl

lemma any_id_eq_false {rows : List CompanyData} {i : String}
    (hfresh : ∀ r ∈ rows, r.id ≠ i) :
    rows.any (fun r => r.id == i) = false := by
  simp only [List.any_eq_false, beq_iff_eq]
  exact hfresh

lemma any_id_eq_true {rows : List CompanyData} {i : String}
    (hdup : ∃ r ∈ rows, r.id = i) :
    rows.any (fun r => r.id == i) = true := by
  simp only [List.any_eq_true, beq_iff_eq]
  exact hdup

/-- In a table satisfying the primary-key invariant, a present
identifier is carried by exactly one row. -/
lemma countP_id_eq_one {rows : List CompanyData} {i : String}
    (hnd : (rows.map CompanyData.id).Nodup)
    (hex : ∃ r ∈ rows, r.id = i) :
    rows.countP (fun r => r.id == i) = 1 := by
  induction rows with
  | nil =>
      obtain ⟨r, hr, _⟩ := hex
      exact absurd hr (List.not_mem_nil r)
  | cons x xs ih =>
      rw [List.map_cons, List.nodup_cons] at hnd
      obtain ⟨hx, hnd'⟩ := hnd
      obtain ⟨r, hr, hri⟩ := hex
      rcases List.mem_cons.mp hr with hrx | hrxs
      · subst hrx
        have hz : xs.countP (fun a => a.id == i) = 0 := by
          rw [List.countP_eq_zero]
          intro a ha hcontra
          apply hx
          rw [hri, ← beq_iff_eq.mp hcontra]
          exact List.mem_map_of_mem CompanyData.id ha
        simp [List.countP_cons, hz, hri]
      · have hone : xs.countP (fun a => a.id == i) = 1 := ih hnd' ⟨r, hrxs, hri⟩
        have hpx : (x.id == i) = false := by
          rw [beq_eq_false_iff_ne]
          intro hxi
          apply hx
          rw [hxi, ← hri]
          exact List.mem_map_of_mem CompanyData.id hrxs
        simp [List.countP_cons, hone, hpx]

/-- A record created under a fresh identifier shows up in the next
list response. -/
lemma mem_list_after_create (data : CompanyDataSchema) (now : Time) (db : DB)
    (hfresh : ∀ r ∈ db.rows, r.id ≠ data.id) :
    CompanyDataSchema.from_orm (mkRow data now) ∈
      (get_company_data (create_company_data data now db).2).1 := by
  have hany : db.rows.any (fun r => r.id == (mkRow data now).id) = false :=
    any_id_eq_false hfresh
  have hrows : (create_company_data data now db).2.rows = db.rows ++ [mkRow data now] := by
    simp [create_company_data, db_insert, hany]
  have hmem : mkRow data now ∈ (create_company_data data now db).2.rows := by
    rw [hrows]; exact List.mem_append_right _ (List.mem_singleton.mpr rfl)
  have hmem2 : mkRow data now ∈ get_company_data_rows (create_company_data data now db).2 :=
    ((List.perm_insertionSort rowDesc _).mem_iff).mpr hmem
  exact List.mem_map_of_mem CompanyDataSchema.from_orm hmem2

/-! ## Claims -/

/-- C3: for every uploaded file, after `extract_data` returns — on
the success path of the conversion and on its failure path alike —
the temporary upload file created for the request no longer exists on
the filesystem (the `finally` block deletes it). -/
theorem extract_removes_temp_file (file : UploadFile)
    (zerox_result : Except String (List String)) (fs : FS) :
    tempFilePath file ∉ (extract_data file zerox_result fs).2 := by
  cases zerox_result <;> simp [extract_data]

/-- C9: if `DATABASE_URL` is absent from the process environment,
module startup fails with the configuration error raised by
`database.py`, so no handler — in particular no store operation — can
ever be invoked. -/
theorem startup_missing_database_url (env : Env)
    (h : getenv env "DATABASE_URL" = none) :
    main_startup env = .error .missingDatabaseUrl := by
  simp [main_startup, database_init, h, Bind.bind, Except.bind]

/-- Witness for C9 at the empty environment. -/
theorem startup_missing_database_url_witness :
    main_startup [] = .error .missingDatabaseUrl :=
  startup_missing_database_url [] rfl

/-- C10: the temporary path used by `extract_data` is exactly
`"./temp_"` followed by the client-supplied filename, so two uploads
carrying the same client-supplied name use the same temporary path. -/
theorem extract_temp_path_format (f₁ f₂ : UploadFile)
    (h : f₁.filename = f₂.filename) :
    tempFilePath f₁ = "./temp_" ++ f₁.filename ∧
    tempFilePath f₁ = tempFilePath f₂ := by
  refine ⟨rfl, ?_⟩
  simp [tempFilePath, h]

/-- Witness for C10: two distinct uploads named `report.pdf` collide
on `./temp_report.pdf`. -/
theorem extract_temp_path_format_witness :
    tempFilePath ⟨"report.pdf", "AAA"⟩ = "./temp_" ++ "report.pdf" ∧
    tempFilePath ⟨"report.pdf", "AAA"⟩ = tempFilePath ⟨"report.pdf", "BBB"⟩ :=
  extract_temp_path_format ⟨"report.pdf", "AAA"⟩ ⟨"report.pdf", "BBB"⟩ rfl

/-- C5: the list endpoint returns exactly the stored records (the row
sequence it marshals is a permutation of the table) ordered by
creation timestamp descending (`rowDesc`-sorted: each row's
`created_at` is at least its successor's). -/
theorem list_returns_all_sorted_desc (db : DB) :
    (get_company_data db).1 =
      (get_company_data_rows db).map CompanyDataSchema.from_orm ∧
    List.Perm (get_company_data_rows db) db.rows ∧
    List.Sorted rowDesc (get_company_data_rows db) :=
  ⟨rfl, List.perm_insertionSort rowDesc db.rows,
    List.sorted_insertionSort rowDesc db.rows⟩

/-- C6: every wire key of a serialized record is the camelCase
rendering (`aliasGenerator`) of the internal snake_case field name —
e.g. `file_name` travels as `fileName` — and a request body keyed by
the camelCase names populates the corresponding snake_case fields:
validating a serialized record recovers it exactly. -/
theorem wire_naming_translation :
    (∀ s : CompanyDataSchema,
      (serializeSchema s).map Prod.fst = fieldNames.map aliasGenerator) ∧
    aliasGenerator "file_name" = "fileName" ∧
    (∀ s : CompanyDataSchema, parseSchema (serializeSchema s) = some s) :=
  ⟨fun _ => rfl, rfl, fun _ => rfl⟩

/-- C1 counterexample: with the database connection string present but
`OPENAI_API_KEY` absent, process startup already fails while
constructing the inference client at module import — the credential's
absence is fatal before the inference endpoint is ever used,
contradicting the claim's final conjunct. -/
theorem parse_key_fatal_at_startup_cex :
    main_startup [("DATABASE_URL", "postgresql://localhost/matrix")] =
      .error .missingApiKey := rfl

/-- C1 (amended): if `OPENAI_API_KEY` is absent, `parse_data` fails
with the configuration error `HTTPException(500)` before any call to
the inference service (no outbound request is attempted); however the
credential's absence is already fatal at startup, because the
inference client is constructed at module import time: in any
environment whose database connection string is set to a non-empty
value (so that the earlier `database.py` check passes), startup fails
with the missing-key error. -/
theorem parse_missing_key_fails_before_call (env : Env)
    (strings columns : List String) (llm : String → Except String String)
    (u : String) (hkey : getenv env "OPENAI_API_KEY" = none)
    (hdb : getenv env "DATABASE_URL" = some u) (hne : u ≠ "") :
    (parse_data env strings columns llm).llmCalled = false ∧
    (parse_data env strings columns llm).result =
      .error ⟨500, "500: OpenAI API key not set"⟩ ∧
    main_startup env = .error .missingApiKey := by
  have h1 : parse_data env strings columns llm =
      { result := .error ⟨500, HTTPError.toText ⟨500, "OpenAI API key not set"⟩⟩
        llmCalled := false } := by
    simp [parse_data, hkey]
  refine ⟨?_, ?_, ?_⟩
  · rw [h1]
  · rw [h1]
    rfl
  · simp [main_startup, database_init, openai_client_init, hdb, hne, hkey,
      Bind.bind, Except.bind]

/-- Witness for C1 at a concrete environment holding only a non-empty
database connection string. -/
theorem parse_missing_key_fails_before_call_witness :
    (parse_data [("DATABASE_URL", "postgresql://localhost/matrix")]
        ["Acme revenue was $10M"] ["revenue"] (fun _ => .ok "unused")).llmCalled = false ∧
    (parse_data [("DATABASE_URL", "postgresql://localhost/matrix")]
        ["Acme revenue was $10M"] ["revenue"] (fun _ => .ok "unused")).result =
      .error ⟨500, "500: OpenAI API key not set"⟩ ∧
    main_startup [("DATABASE_URL", "postgresql://localhost/matrix")] =
      .error .missingApiKey :=
  parse_missing_key_fails_before_call
    [("DATABASE_URL", "postgresql://localhost/matrix")]
    ["Acme revenue was $10M"] ["revenue"] (fun _ => .ok "unused")
    "postgresql://localhost/matrix" rfl rfl (by decide)

/-- C2 counterexample: creating the record `{id := "c1", file_name :=
"a.pdf"}` on an empty store at server time 5 stores the row with
`created_at = 5`, but the returned response carries no creation
timestamp at all — the response schema has no such field, so neither
`createdAt` nor `created_at` appears among the serialized keys. -/
theorem create_timestamp_not_in_response_cex :
    ((create_company_data { id := "c1", file_name := "a.pdf" } 5
        ⟨[]⟩).2.rows.map CompanyData.created_at = [5]) ∧
    ((create_company_data { id := "c1", file_name := "a.pdf" } 5 ⟨[]⟩).1 =
      .ok (CompanyDataSchema.from_orm
        (mkRow { id := "c1", file_name := "a.pdf" } 5))) ∧
    "createdAt" ∉ (serializeSchema (CompanyDataSchema.from_orm
        (mkRow { id := "c1", file_name := "a.pdf" } 5))).map Prod.fst ∧
    "created_at" ∉ (serializeSchema (CompanyDataSchema.from_orm
        (mkRow { id := "c1", file_name := "a.pdf" } 5))).map Prod.fst :=
  ⟨rfl, rfl, by decide, by decide⟩

/-- C2 (amended): for a record with a fresh identifier, `create`
inserts the row and assigns the server-side creation timestamp in the
store; the response echoes the record's schema fields, but the
creation timestamp is not part of the response, since the response
schema (`CompanyDataSchema`) has no timestamp field. -/
theorem create_inserts_with_timestamp (data : CompanyDataSchema)
    (now : Time) (db : DB)
    (hfresh : ∀ r ∈ db.rows, r.id ≠ data.id) :
    (create_company_data data now db).1 =
      .ok (CompanyDataSchema.from_orm (mkRow data now)) ∧
    (create_company_data data now db).2.rows = db.rows ++ [mkRow data now] ∧
    (mkRow data now).created_at = now ∧
    ∀ k ∈ (serializeSchema (CompanyDataSchema.from_orm (mkRow data now))).map
        Prod.fst, k ≠ "createdAt" ∧ k ≠ "created_at" := by
  have hany : db.rows.any (fun r => r.id == (mkRow data now).id) = false :=
    any_id_eq_false hfresh
  refine ⟨?_, ?_, rfl, fun k hk => ⟨fun hEq => ?_, fun hEq => ?_⟩⟩
  · simp [create_company_data, db_insert, hany]
  · simp [create_company_data, db_insert, hany]
  · subst hEq
    rw [serializeSchema_keys] at hk
    exact absurd hk (by decide)
  · subst hEq
    rw [serializeSchema_keys] at hk
    exact absurd hk (by decide)

/-- Witness for C2 with a concrete record on the empty store. -/
theorem create_inserts_with_timestamp_witness :
    (create_company_data { id := "c1", file_name := "a.pdf" } 5 ⟨[]⟩).1 =
      .ok (CompanyDataSchema.from_orm
        (mkRow { id := "c1", file_name := "a.pdf" } 5)) ∧
    (create_company_data { id := "c1", file_name := "a.pdf" } 5 ⟨[]⟩).2.rows =
      [] ++ [mkRow { id := "c1", file_name := "a.pdf" } 5] ∧
    (mkRow { id := "c1", file_name := "a.pdf" } 5).created_at = 5 ∧
    ∀ k ∈ (serializeSchema (CompanyDataSchema.from_orm
        (mkRow { id := "c1", file_name := "a.pdf" } 5))).map Prod.fst,
      k ≠ "createdAt" ∧ k ≠ "created_at" :=
  create_inserts_with_timestamp { id := "c1", file_name := "a.pdf" } 5 ⟨[]⟩
    (by decide)

/-- C4: in any store satisfying the primary-key invariant, creating a
record whose identifier is already present fails with the
duplicate-identifier error — raised by the store's constraint at
commit, `create_company_data` performs no pre-check — leaves the
store unchanged, and the store retains exactly one row with that
identifier. -/
theorem create_duplicate_fails (db : DB) (data : CompanyDataSchema)
    (now : Time) (hinv : DBInvariant db)
    (hdup : ∃ r ∈ db.rows, r.id = data.id) :
    (create_company_data data now db).1 = .error .duplicateIdentifier ∧
    (create_company_data data now db).2 = db ∧
    (create_company_data data now db).2.rows.countP
      (fun r => r.id == data.id) = 1 := by
  have hany : db.rows.any (fun r => r.id == (mkRow data now).id) = true :=
    any_id_eq_true hdup
  refine ⟨?_, ?_, ?_⟩
  · simp [create_company_data, db_insert, hany]
  · simp [create_company_data, db_insert, hany]
  · have hst : (create_company_data data now db).2 = db := by
      simp [create_company_data, db_insert, hany]
    rw [hst]
    exact countP_id_eq_one hinv hdup

/-- Witness for C4: a second create with identifier `c1` on a store
already holding it fails and the store keeps exactly one such row. -/
theorem create_duplicate_fails_witness :
    (create_company_data { id := "c1", file_name := "b.pdf" } 7
        ⟨[mkRow { id := "c1", file_name := "a.pdf" } 5]⟩).1 =
      .error .duplicateIdentifier ∧
    (create_company_data { id := "c1", file_name := "b.pdf" } 7
        ⟨[mkRow { id := "c1", file_name := "a.pdf" } 5]⟩).2 =
      ⟨[mkRow { id := "c1", file_name := "a.pdf" } 5]⟩ ∧
    (create_company_data { id := "c1", file_name := "b.pdf" } 7
        ⟨[mkRow { id := "c1", file_name := "a.pdf" } 5]⟩).2.rows.countP
      (fun r => r.id == "c1") = 1 :=
  create_duplicate_fails ⟨[mkRow { id := "c1", file_name := "a.pdf" } 5]⟩
    { id := "c1", file_name := "b.pdf" } 7 (by simp [DBInvariant])
    ⟨mkRow { id := "c1", file_name := "a.pdf" } 5, by simp, rfl⟩

/-- C7: a create request supplying only the identifier and file name
succeeds (all other fields default to `None`), and the stored record
reads back from the list endpoint with every optional field absent. -/
theorem create_minimal_record (i fn : String) (now : Time) (db : DB)
    (hfresh : ∀ r ∈ db.rows, r.id ≠ i) :
    (create_company_data { id := i, file_name := fn } now db).1 =
      .ok { id := i, file_name := fn } ∧
    ({ id := i, file_name := fn } : CompanyDataSchema).company_name = none ∧
    ({ id := i, file_name := fn } : CompanyDataSchema).company_description = none ∧
    ({ id := i, file_name := fn } : CompanyDataSchema).company_business_model = none ∧
    ({ id := i, file_name := fn } : CompanyDataSchema).company_industry = none ∧
    ({ id := i, file_name := fn } : CompanyDataSchema).management_team = none ∧
    ({ id := i, file_name := fn } : CompanyDataSchema).revenue = none ∧
    ({ id := i, file_name := fn } : CompanyDataSchema).revenue_growth = none ∧
    ({ id := i, file_name := fn } : CompanyDataSchema).gross_profit = none ∧
    ({ id := i, file_name := fn } : CompanyDataSchema).ebitda = none ∧
    ({ id := i, file_name := fn } : CompanyDataSchema).capex = none ∧
    ({ id := i, file_name := fn } : CompanyDataSchema) ∈
      (get_company_data
        (create_company_data { id := i, file_name := fn } now db).2).1 := by
  have hany : db.rows.any
      (fun r => r.id == (mkRow { id := i, file_name := fn } now).id) = false :=
    any_id_eq_false hfresh
  refine ⟨?_, rfl, rfl, rfl, rfl, rfl, rfl, rfl, rfl, rfl, rfl, ?_⟩
  · simp [create_company_data, db_insert, hany, from_orm_mkRow]
  · exact mem_list_after_create { id := i, file_name := fn } now db hfresh

/-- Witness for C7 with identifier `c1` and file name `a.pdf` on the
empty store. -/
theorem create_minimal_record_witness :
    (create_company_data { id := "c1", file_name := "a.pdf" } 5 ⟨[]⟩).1 =
      .ok { id := "c1", file_name := "a.pdf" } ∧
    ({ id := "c1", file_name := "a.pdf" } : CompanyDataSchema).company_name = none ∧
    ({ id := "c1", file_name := "a.pdf" } : CompanyDataSchema).company_description = none ∧
    ({ id := "c1", file_name := "a.pdf" } : CompanyDataSchema).company_business_model = none ∧
    ({ id := "c1", file_name := "a.pdf" } : CompanyDataSchema).company_industry = none ∧
    ({ id := "c1", file_name := "a.pdf" } : CompanyDataSchema).management_team = none ∧
    ({ id := "c1", file_name := "a.pdf" } : CompanyDataSchema).revenue = none ∧
    ({ id := "c1", file_name := "a.pdf" } : CompanyDataSchema).revenue_growth = none ∧
    ({ id := "c1", file_name := "a.pdf" } : CompanyDataSchema).gross_profit = none ∧
    ({ id := "c1", file_name := "a.pdf" } : CompanyDataSchema).ebitda = none ∧
    ({ id := "c1", file_name := "a.pdf" } : CompanyDataSchema).capex = none ∧
    ({ id := "c1", file_name := "a.pdf" } : CompanyDataSchema) ∈
      (get_company_data
        (create_company_data { id := "c1", file_name := "a.pdf" } 5 ⟨[]⟩).2).1 :=
  create_minimal_record "c1" "a.pdf" 5 ⟨[]⟩ (by decide)

/-- C8: a record created under a fresh identifier is included in a
subsequent list response; and the list endpoint does not modify the
store, so two list calls with no intervening create return identical
results. -/
theorem list_contains_created_and_is_pure (data : CompanyDataSchema)
    (now : Time) (db : DB) (hfresh : ∀ r ∈ db.rows, r.id ≠ data.id) :
    CompanyDataSchema.from_orm (mkRow data now) ∈
      (get_company_data (create_company_data data now db).2).1 ∧
    (get_company_data db).2 = db ∧
    (get_company_data ((get_company_data db).2)).1 = (get_company_data db).1 :=
  ⟨mem_list_after_create data now db hfresh, rfl, rfl⟩

/-- Witness for C8 with a concrete record on the empty store. -/
theorem list_contains_created_and_is_pure_witness :
    CompanyDataSchema.from_orm
      (mkRow { id := "c1", file_name := "a.pdf" } 5) ∈
      (get_company_data
        (create_company_data { id := "c1", file_name := "a.pdf" } 5 ⟨[]⟩).2).1 ∧
    (get_company_data ⟨[]⟩).2 = (⟨[]⟩ : DB) ∧
    (get_company_data ((get_company_data ⟨[]⟩).2)).1 =
      (get_company_data (⟨[]⟩ : DB)).1 :=
  list_contains_created_and_is_pure { id := "c1", file_name := "a.pdf" } 5 ⟨[]⟩
    (by decide)

end MatrixBackend
